import Mathlib

/- Shallow embedding of timed-task.h: a self-correcting periodic task
runner (class TimerTask) feeding a StatisticsCollector.  Machine
integers are modelled as Nat and Int with explicit reduction modulo
2 ^ 64 where the C++ code performs uint64_t or size_t arithmetic;
clock readings and nanosecond durations are mathematical integers. -/

/-- Modulus of uint64_t and size_t arithmetic. -/
def U64 : Nat := 2 ^ 64

/-- Enum TimeUnit: integer scale factors, values in nanoseconds. -/
inductive TimeUnit where
  | nanoseconds
  | microseconds
  | milliseconds
  | seconds
  | minutes
  | hours
deriving DecidableEq

/-- Numeric value of each TimeUnit enumerator (nanoseconds per unit). -/
def TimeUnit.val : TimeUnit → Nat
  | .nanoseconds => 1
  | .microseconds => 1000
  | .milliseconds => 1000000
  | .seconds => 1000000000
  | .minutes => 60000000000
  | .hours => 3600000000000

/-- Display name chosen by the switch statement in printResults. -/
def TimeUnit.unitName : TimeUnit → String
  | .nanoseconds => "nanoseconds"
  | .microseconds => "microseconds"
  | .milliseconds => "milliseconds"
  | .seconds => "seconds"
  | .minutes => "minutes"
  | .hours => "hours"

/-- Fields of class StatisticsCollector, with the names of the source. -/
structure StatisticsCollector where
  samples : Nat
  acummulation : Nat
  compensation : Nat
  maxVariance : Nat
  minVariance : Nat
  toleraceExcessionCount : Nat
deriving DecidableEq

/-- Data emitted by printResults before unit scaling: the sample count,
the two integer-divided averages, the extrema, the exceedance count and
the display name of the unit. -/
structure Report where
  samples : Nat
  deviation_average_ns : Nat
  compensation_average_ns : Nat
  maxVariance : Nat
  minVariance : Nat
  toleraceExcessionCount : Nat
  unitName : String
deriving DecidableEq

namespace StatisticsCollector

/-- Default-constructed collector: the in-class initializers of the
source, with minVariance set to numeric_limits of uint64_t max. -/
def init : StatisticsCollector :=
  { samples := 0, acummulation := 0, compensation := 0,
    maxVariance := 0, minVariance := U64 - 1, toleraceExcessionCount := 0 }

/-- Method calcSleepCompensation: compensation += amountSlept.count().
The signed int64_t nanosecond count is converted to uint64_t and added
modulo 2 ^ 64 (unsigned wraparound). -/
def calcSleepCompensation (amountSlept : Int) (s : StatisticsCollector) : StatisticsCollector :=
  { s with compensation := (((s.compensation : Int) + amountSlept) % (U64 : Int)).toNat }

/-- Method accumulate: acummulation += amount; samples++ (uint64_t and
size_t arithmetic, modulo 2 ^ 64). -/
def accumulate (amount : Nat) (s : StatisticsCollector) : StatisticsCollector :=
  { s with acummulation := (s.acummulation + amount) % U64,
           samples := (s.samples + 1) % U64 }

/-- Method considerVariance: running max and min of the error samples. -/
def considerVariance (errorSample : Nat) (s : StatisticsCollector) : StatisticsCollector :=
  { s with maxVariance := max errorSample s.maxVariance,
           minVariance := min errorSample s.minVariance }

/-- The error of line 48: chrono abs of (execTime - expected), stored
into a uint64_t variable. -/
def execError (startT endT expected : Int) : Nat :=
  ((endT - startT) - expected).natAbs % U64

/-- Method calcExecTimeError(start, end, expected): accumulate the
absolute error, update the variance extrema, and count a tolerance
excession when execTime exceeds expected times 1.05.  The C++ check
multiplies by the double literal 1.05; it is modelled exactly as the
rational comparison execTime * 100 > expected * 105. -/
def calcExecTimeError (startT endT expected : Int) (s : StatisticsCollector) :
    StatisticsCollector :=
  let execTime := endT - startT
  let error := execError startT endT expected
  let s1 := considerVariance error (accumulate error s)
  if execTime * 100 > expected * 105 then
    { s1 with toleraceExcessionCount := (s1.toleraceExcessionCount + 1) % U64 }
  else s1

/-- Method printResults: computes acummulation / samples and
compensation / samples as uint64_t divisions.  When samples == 0 these
divide by zero, which is undefined behavior in C++ (a crash in
practice); the embedding returns that outcome as the error branch.
Otherwise the report data handed to the output stream is returned. -/
def printResults (samplingUnit : TimeUnit) (s : StatisticsCollector) : Except String Report :=
  if s.samples = 0 then Except.error "division by zero: samples == 0"
  else Except.ok
    { samples := s.samples,
      deviation_average_ns := s.acummulation / s.samples,
      compensation_average_ns := s.compensation / s.samples,
      maxVariance := s.maxVariance,
      minVariance := s.minVariance,
      toleraceExcessionCount := s.toleraceExcessionCount,
      unitName := samplingUnit.unitName }

end StatisticsCollector

instance : DecidableEq (Except String Report) := fun a b =>
  match a, b with
  | .error x, .error y =>
      if h : x = y then .isTrue (by rw [h]) else .isFalse (by simp [h])
  | .error _, .ok _ => .isFalse (by simp)
  | .ok _, .error _ => .isFalse (by simp)
  | .ok x, .ok y =>
      if h : x = y then .isTrue (by rw [h]) else .isFalse (by simp [h])

/-- Observable side effects of the scheduler: joining the worker thread
and emitting a statistics report to the output stream. -/
inductive Event where
  | threadJoined
  | reportEmitted (r : Except String Report)
deriving DecidableEq

/-- Fields of class TimerTask.  The field threadJoinable models the
result of workerThread_.joinable(); the thread object itself is not
represented, and the first statement the worker thread executes
(running_ = true) is serialized into the init step that spawns it. -/
structure TimerTask where
  rate_ : Nat
  ratio_ : TimeUnit
  statisticsEnabled : Bool
  collector : StatisticsCollector
  running_ : Bool
  threadJoinable : Bool
deriving DecidableEq

namespace TimerTask

/-- Method init(): when rate_ != 0 a worker thread is spawned, whose
first statement sets running_ = true; when rate_ == 0 nothing happens
(line 145 avoids a non-sleeping timer). -/
def init (t : TimerTask) : TimerTask :=
  if t.rate_ ≠ 0 then { t with threadJoinable := true, running_ := true } else t

/-- The constructor TimerTask(rate, unit, enableStatistics): stores the
configuration, default-constructs the collector, and calls init(). -/
def construct (rate : Nat) (unit : TimeUnit) (enableStatistics : Bool) : TimerTask :=
  init { rate_ := rate, ratio_ := unit, statisticsEnabled := enableStatistics,
         collector := StatisticsCollector.init, running_ := false, threadJoinable := false }

/-- Method stop(): when the worker is joinable, set running_ = false
under the lock, notify the condition variable and join the thread;
then, whenever statistics are enabled, print the results in
milliseconds.  Returns the new state and the observable events. -/
def stop (t : TimerTask) : TimerTask × List Event :=
  let p :=
    if t.threadJoinable then
      ({ t with running_ := false, threadJoinable := false }, [Event.threadJoined])
    else (t, ([] : List Event))
  if t.statisticsEnabled then
    (p.1, p.2 ++ [Event.reportEmitted
      (StatisticsCollector.printResults TimeUnit.milliseconds p.1.collector)])
  else p

/-- Method restart(): stop right now and start again with the new rate. -/
def restart (t : TimerTask) : TimerTask × List Event :=
  let p := t.stop
  (p.1.init, p.2)

/-- Method setRate(rate, unit, imediate): update the cadence; when
imediate is true restart immediately, otherwise do nothing more (the
non-immediate path is an unimplemented todo in the source). -/
def setRate (rate : Nat) (unit : TimeUnit) (imediate : Bool) (t : TimerTask) :
    TimerTask × List Event :=
  let t1 := { t with rate_ := rate, ratio_ := unit }
  if imediate then t1.restart else (t1, [])

end TimerTask

/-- Clock readings and the cancellation outcome of one iteration of the
worker loop; these come from the environment (the monotonic clock and
the condition variable wait). -/
structure CycleObs where
  startTime : Int
  stopTime : Int
  postWaitTime : Int
  cancelled : Bool
deriving DecidableEq

/-- Lines 155 to 173 of the worker loop: the compensated sleep duration
for one cycle.  sleepTime = period - elapsed; when negative it becomes
period - (abs(sleepTime) mod period); finally 50 microseconds are
subtracted as an offset for the surrounding operations. -/
def computeSleepTime (period elapsed : Int) : Int :=
  let sleepTime := period - elapsed
  let sleepTime1 :=
    if sleepTime < 0 then period - ((sleepTime.natAbs : Int) % period) else sleepTime
  sleepTime1 - 50000

/-- One iteration of the worker loop body (lines 149 to 183): the action
runs between the two clock reads, the sleep duration is computed, the
wait happens (its cancellation outcome is c.cancelled), and when not
cancelled the cycle error and the sleep compensation are recorded.
Returns the collector state and whether the loop breaks. -/
def runCycle (period : Int) (c : CycleObs) (s : StatisticsCollector) :
    StatisticsCollector × Bool :=
  let sleepTime := computeSleepTime period (c.stopTime - c.startTime)
  if c.cancelled then (s, true)
  else
    (StatisticsCollector.calcSleepCompensation sleepTime
      (StatisticsCollector.calcExecTimeError c.startTime c.postWaitTime period s), false)

/-- Fold a sequence of calcExecTimeError calls over a collector state:
each list entry is (start, end, expected). -/
def applyCalcs (calls : List (Int × Int × Int)) (s : StatisticsCollector) :
    StatisticsCollector :=
  calls.foldl (fun s c => StatisticsCollector.calcExecTimeError c.1 c.2.1 c.2.2 s) s

/-- Number of statistics reports among a list of events. -/
def reportCount (evs : List Event) : Nat :=
  (evs.filter fun e => match e with | Event.reportEmitted _ => true | _ => false).length

/- Theorems settling the claims. -/

/-- Claim C1: the claim demands that summarize (printResults) with
sampleCount == 0 returns an explicit no-data result and performs no
division by zero.  At the failing input, a freshly constructed
collector, printResults reaches the uint64_t division
acummulation / samples with samples == 0: undefined behavior (a crash),
modelled as the error branch, not a graceful no-data result. -/
theorem C1_printResults_zero_samples_divides_by_zero :
    StatisticsCollector.printResults TimeUnit.milliseconds StatisticsCollector.init
      = Except.error "division by zero: samples == 0" := rfl

/-- Claim C2 counterexample: with rate = 0 and collectStatistics = true,
stop() is not free of observable actions: it emits a statistics report
(which moreover hits the division by zero of the empty collector), so
the claim fails for collectStatistics = true. -/
theorem C2_stop_not_noop_with_statistics :
    ((TimerTask.construct 0 TimeUnit.milliseconds true).stop).2
      = [Event.reportEmitted (Except.error "division by zero: samples == 0")] := rfl

/-- Claim C2 amended: constructing with rate = 0 starts no worker
(threadJoinable and running_ stay false) and stop() changes no state
and performs no thread operation; with statistics disabled it is a full
no-op, while with statistics enabled its only observable action is
emitting the statistics report of the empty collector. -/
theorem C2_rate_zero_stop_spec (unit : TimeUnit) :
    (TimerTask.construct 0 unit false).threadJoinable = false
  ∧ (TimerTask.construct 0 unit false).running_ = false
  ∧ (TimerTask.construct 0 unit true).threadJoinable = false
  ∧ (TimerTask.construct 0 unit true).running_ = false
  ∧ (TimerTask.construct 0 unit false).stop = ((TimerTask.construct 0 unit false), [])
  ∧ (TimerTask.construct 0 unit true).stop
      = ((TimerTask.construct 0 unit true),
         [Event.reportEmitted (Except.error "division by zero: samples == 0")]) :=
  ⟨rfl, rfl, rfl, rfl, rfl, rfl⟩

/-- Claim C3: calcExecTimeError(start, end, expected) computes
error = abs((end - start) - expected), increments samples by exactly
one, adds error to the accumulator, takes the running max and min into
maxVariance and minVariance, and increments toleraceExcessionCount
exactly when (end - start) exceeds expected times 1.05 (read exactly as
the rational comparison times 105 over 100), under no-overflow bounds
on the 64-bit fields. -/
theorem C3_calcExecTimeError_spec (s : StatisticsCollector) (startT endT expected : Int)
    (herr : ((endT - startT) - expected).natAbs < U64)
    (hacc : s.acummulation + ((endT - startT) - expected).natAbs < U64)
    (hsam : s.samples + 1 < U64)
    (htol : s.toleraceExcessionCount + 1 < U64) :
    (StatisticsCollector.calcExecTimeError startT endT expected s).samples = s.samples + 1
  ∧ (StatisticsCollector.calcExecTimeError startT endT expected s).acummulation
      = s.acummulation + ((endT - startT) - expected).natAbs
  ∧ (StatisticsCollector.calcExecTimeError startT endT expected s).maxVariance
      = max s.maxVariance (((endT - startT) - expected).natAbs)
  ∧ (StatisticsCollector.calcExecTimeError startT endT expected s).minVariance
      = min s.minVariance (((endT - startT) - expected).natAbs)
  ∧ ((StatisticsCollector.calcExecTimeError startT endT expected s).toleraceExcessionCount
        = s.toleraceExcessionCount + 1
      ↔ (endT - startT) * 100 > expected * 105)
  ∧ ((StatisticsCollector.calcExecTimeError startT endT expected s).toleraceExcessionCount
        = s.toleraceExcessionCount
      ↔ ¬ (endT - startT) * 100 > expected * 105) := by
  have he : StatisticsCollector.execError startT endT expected
      = ((endT - startT) - expected).natAbs := Nat.mod_eq_of_lt herr
  by_cases hc : (endT - startT) * 100 > expected * 105
  · refine ⟨?_, ?_, ?_, ?_, ?_, ?_⟩ <;>
      simp [StatisticsCollector.calcExecTimeError, StatisticsCollector.accumulate,
            StatisticsCollector.considerVariance, he, hc,
            Nat.mod_eq_of_lt hacc, Nat.mod_eq_of_lt hsam, Nat.mod_eq_of_lt htol,
            Nat.max_comm, Nat.min_comm]
  · refine ⟨?_, ?_, ?_, ?_, ?_, ?_⟩ <;>
      simp [StatisticsCollector.calcExecTimeError, StatisticsCollector.accumulate,
            StatisticsCollector.considerVariance, he, hc,
            Nat.mod_eq_of_lt hacc, Nat.mod_eq_of_lt hsam,
            Nat.max_comm, Nat.min_comm]

/-- Witness for claim C3: a concrete call with start 0, end 300 and
expected period 100, whose error is 200 and which exceeds tolerance. -/
theorem C3_witness :
    ((300:Int) - 0 - 100).natAbs < U64
  ∧ StatisticsCollector.init.acummulation + ((300:Int) - 0 - 100).natAbs < U64
  ∧ StatisticsCollector.init.samples + 1 < U64
  ∧ StatisticsCollector.init.toleraceExcessionCount + 1 < U64
  ∧ (StatisticsCollector.calcExecTimeError 0 300 100 StatisticsCollector.init).samples
      = StatisticsCollector.init.samples + 1
  ∧ (StatisticsCollector.calcExecTimeError 0 300 100 StatisticsCollector.init).acummulation
      = StatisticsCollector.init.acummulation + ((300:Int) - 0 - 100).natAbs
  ∧ (StatisticsCollector.calcExecTimeError 0 300 100
        StatisticsCollector.init).toleraceExcessionCount
      = StatisticsCollector.init.toleraceExcessionCount + 1 :=
  have h1 : ((300:Int) - 0 - 100).natAbs < U64 := by norm_num [U64]
  have h2 : StatisticsCollector.init.acummulation + ((300:Int) - 0 - 100).natAbs < U64 := by
    norm_num [U64, StatisticsCollector.init]
  have h3 : StatisticsCollector.init.samples + 1 < U64 := by
    norm_num [U64, StatisticsCollector.init]
  have h4 : StatisticsCollector.init.toleraceExcessionCount + 1 < U64 := by
    norm_num [U64, StatisticsCollector.init]
  have h := C3_calcExecTimeError_spec StatisticsCollector.init 0 300 100 h1 h2 h3 h4
  ⟨h1, h2, h3, h4, h.1, h.2.1, (h.2.2.2.2.1).mpr (by norm_num)⟩

/-- Claim C4: with period > 0, the computed wait duration is
period - elapsed when elapsed is at most period, and
period - (abs(period - elapsed) mod period) when elapsed exceeds the
period; in both cases the fixed 50 microsecond scheduling-overhead
offset is subtracted before the wait. -/
theorem C4_computeSleepTime_spec (period elapsed : Int) (hp : 0 < period) :
    (elapsed ≤ period → computeSleepTime period elapsed = period - elapsed - 50000)
  ∧ (elapsed > period →
       computeSleepTime period elapsed
         = period - (((period - elapsed).natAbs : Int) % period) - 50000) := by
  have hp0 : 0 < period := hp
  constructor
  · intro h
    have hnn : ¬ (period - elapsed < 0) := by omega
    simp [computeSleepTime, hnn]
  · intro h
    have hneg : period - elapsed < 0 := by omega
    simp [computeSleepTime, hneg]

/-- Witness for claim C4: a cycle whose action took 30000 ns of a
100000 ns period waits 20000 ns, while one that took 250000 ns waits
0 ns (remainder 50000 compensated, then the 50000 ns offset). -/
theorem C4_witness :
    (0:Int) < 100000
  ∧ (30000:Int) ≤ 100000
  ∧ computeSleepTime 100000 30000 = 20000
  ∧ (250000:Int) > 100000
  ∧ computeSleepTime 100000 250000 = 0 :=
  ⟨by norm_num, by norm_num,
   by rw [(C4_computeSleepTime_spec 100000 30000 (by norm_num)).1 (by norm_num)]; norm_num,
   by norm_num,
   by rw [(C4_computeSleepTime_spec 100000 250000 (by norm_num)).2 (by norm_num)]; decide⟩

/-- Claim C5 counterexample: with statistics enabled, a second stop()
after the scheduler has already stopped still emits a statistics
report, an observable effect beyond the first call, so stop() is not a
no-op when already stopped. -/
theorem C5_second_stop_emits_report :
    ((((TimerTask.construct 1 TimeUnit.nanoseconds true).stop).1).stop).2
      = [Event.reportEmitted (Except.error "division by zero: samples == 0")] := rfl

/-- Claim C5 amended: stop() on an already-stopped scheduler (worker no
longer joinable) changes no state and performs no thread operation;
with statistics disabled it is a full no-op, but with statistics
enabled every call re-emits the statistics report. -/
theorem C5_stop_idempotent_amended (t : TimerTask) (h : t.threadJoinable = false) :
    (t.stop).1 = t
  ∧ (t.statisticsEnabled = false → (t.stop).2 = [])
  ∧ (t.statisticsEnabled = true →
       (t.stop).2 = [Event.reportEmitted
         (StatisticsCollector.printResults TimeUnit.milliseconds t.collector)]) := by
  cases hse : t.statisticsEnabled <;>
    simp [TimerTask.stop, h, hse]

/-- Witness for claim C5: the concrete already-stopped instance obtained
by stopping a rate 1 scheduler with statistics enabled. -/
theorem C5_witness :
    (((TimerTask.construct 1 TimeUnit.nanoseconds true).stop).1).threadJoinable = false
  ∧ (((((TimerTask.construct 1 TimeUnit.nanoseconds true).stop).1).stop).1
      = ((TimerTask.construct 1 TimeUnit.nanoseconds true).stop).1) :=
  ⟨rfl,
   (C5_stop_idempotent_amended ((TimerTask.construct 1 TimeUnit.nanoseconds true).stop).1
     rfl).1⟩

/-- Claim C6 counterexample: the running_ flag is resurrected by the
same instance: after stop() it is false, and a subsequent
setRate(1, nanoseconds, immediate = true) restarts the worker and sets
it true again, so the claimed monotonicity fails. -/
theorem C6_running_resurrected :
    (TimerTask.construct 1 TimeUnit.nanoseconds false).running_ = true
  ∧ (((TimerTask.construct 1 TimeUnit.nanoseconds false).stop).1).running_ = false
  ∧ ((((TimerTask.construct 1 TimeUnit.nanoseconds false).stop).1).setRate
        1 TimeUnit.nanoseconds true).1.running_ = true :=
  ⟨rfl, rfl, rfl⟩

/-- Claim C6 amended: running_ falls to false on stop() and rises to
true only when a new worker is started: setRate with immediate = false
leaves it unchanged, while setRate(rate, unit, immediate = true)
performs stop() and init(), leaving running_ = true exactly when the
new rate is nonzero.  This matches the state machine of the spec in
which Stopped can go back to Running via restart.  The hypothesis ties
running_ to thread existence, which holds in every reachable state. -/
theorem C6_running_transitions (t : TimerTask) (h : t.running_ = t.threadJoinable) :
    ((t.stop).1.running_ = false)
  ∧ (∀ r u, ((t.setRate r u false).1.running_ = t.running_))
  ∧ (∀ r u, r ≠ 0 → ((t.setRate r u true).1.running_ = true))
  ∧ (∀ r u, r = 0 → ((t.setRate r u true).1.running_ = false)) := by
  refine ⟨?_, fun r u => ?_, fun r u hr => ?_, fun r u hr => ?_⟩ <;>
    cases hj : t.threadJoinable <;> cases hse : t.statisticsEnabled <;>
      simp [TimerTask.stop, TimerTask.setRate, TimerTask.restart, TimerTask.init,
            hj, hse, h] <;>
        simp_all

/-- Witness for claim C6 amended: the freshly constructed rate 1
scheduler, where running_ and thread existence agree. -/
theorem C6_witness :
    (TimerTask.construct 1 TimeUnit.nanoseconds false).running_
      = (TimerTask.construct 1 TimeUnit.nanoseconds false).threadJoinable
  ∧ (((TimerTask.construct 1 TimeUnit.nanoseconds false).stop).1.running_ = false)
  ∧ (((TimerTask.construct 1 TimeUnit.nanoseconds false).setRate
        5 TimeUnit.seconds true).1.running_ = true)
  ∧ (((TimerTask.construct 1 TimeUnit.nanoseconds false).setRate
        0 TimeUnit.seconds true).1.running_ = false) :=
  have h := C6_running_transitions (TimerTask.construct 1 TimeUnit.nanoseconds false) rfl
  ⟨rfl, h.1, h.2.2.1 5 TimeUnit.seconds (by norm_num), h.2.2.2 0 TimeUnit.seconds rfl⟩

/-- Each calcExecTimeError call takes the variance extrema to the max
and min with the freshly computed error sample. -/
theorem StatisticsCollector.calcExecTimeError_variance (startT endT expected : Int)
    (s : StatisticsCollector) :
    (calcExecTimeError startT endT expected s).maxVariance
      = max (execError startT endT expected) s.maxVariance
  ∧ (calcExecTimeError startT endT expected s).minVariance
      = min (execError startT endT expected) s.minVariance := by
  by_cases hc : (endT - startT) * 100 > expected * 105 <;>
    simp [calcExecTimeError, considerVariance, accumulate, hc]

/-- After any calcExecTimeError call the minimum variance is bounded by
the maximum variance. -/
theorem StatisticsCollector.minVariance_le_after_step (startT endT expected : Int)
    (s : StatisticsCollector) :
    (calcExecTimeError startT endT expected s).minVariance
      ≤ (calcExecTimeError startT endT expected s).maxVariance := by
  obtain ⟨hmax, hmin⟩ := calcExecTimeError_variance startT endT expected s
  rw [hmax, hmin]
  exact le_trans (Nat.min_le_left _ _) (Nat.le_max_left _ _)

/-- A nonempty sequence of calcExecTimeError calls leaves the minimum
variance bounded by the maximum variance, from any starting state. -/
theorem applyCalcs_min_le_max (calls : List (Int × Int × Int)) :
    ∀ s : StatisticsCollector, calls ≠ [] →
      (applyCalcs calls s).minVariance ≤ (applyCalcs calls s).maxVariance := by
  induction calls with
  | nil => exact fun s h => absurd rfl h
  | cons c rest ih =>
    intro s _
    cases rest with
    | nil =>
      simpa [applyCalcs] using
        StatisticsCollector.minVariance_le_after_step c.1 c.2.1 c.2.2 s
    | cons d rest2 =>
      have h2 := ih (StatisticsCollector.calcExecTimeError c.1 c.2.1 c.2.2 s) (by simp)
      simpa [applyCalcs] using h2

/-- Claim C7: minVariance starts at the maximum representable uint64_t
value, and every state reached from the fresh collector by a sequence
of recordCycle calls with a nonzero sample count satisfies
minVariance at most maxVariance. -/
theorem C7_minVariance_invariant :
    StatisticsCollector.init.minVariance = 2 ^ 64 - 1
  ∧ ∀ calls : List (Int × Int × Int),
      (applyCalcs calls StatisticsCollector.init).samples ≠ 0 →
        (applyCalcs calls StatisticsCollector.init).minVariance
          ≤ (applyCalcs calls StatisticsCollector.init).maxVariance := by
  refine ⟨rfl, fun calls h => ?_⟩
  apply applyCalcs_min_le_max
  intro hnil
  apply h
  subst hnil
  rfl

/-- Witness for claim C7: one recorded cycle with error 50. -/
theorem C7_witness :
    (applyCalcs [(0, 150, 100)] StatisticsCollector.init).samples ≠ 0
  ∧ (applyCalcs [(0, 150, 100)] StatisticsCollector.init).minVariance
      ≤ (applyCalcs [(0, 150, 100)] StatisticsCollector.init).maxVariance :=
  ⟨by decide, C7_minVariance_invariant.2 [(0, 150, 100)] (by decide)⟩

/-- A calcExecTimeError call never touches the compensation
accumulator and always increments the sample count by one modulo
2 ^ 64. -/
theorem StatisticsCollector.calcExecTimeError_compensation_samples
    (startT endT expected : Int) (s : StatisticsCollector) :
    (calcExecTimeError startT endT expected s).compensation = s.compensation
  ∧ (calcExecTimeError startT endT expected s).samples = (s.samples + 1) % U64 := by
  by_cases hc : (endT - startT) * 100 > expected * 105 <;>
    simp [calcExecTimeError, considerVariance, accumulate, hc]

/-- Claim C8: a loop cycle that completes its wait without cancellation
records exactly one error sample, computed from the cycle start
timestamp, the post-wait timestamp and the period, and adds the
computed compensation amount to the compensation accumulator; the loop
then continues. -/
theorem C8_cycle_records (period : Int) (c : CycleObs) (s : StatisticsCollector)
    (h : c.cancelled = false) (hsam : s.samples + 1 < U64) :
    (runCycle period c s).1
      = StatisticsCollector.calcSleepCompensation
          (computeSleepTime period (c.stopTime - c.startTime))
          (StatisticsCollector.calcExecTimeError c.startTime c.postWaitTime period s)
  ∧ (runCycle period c s).1.samples = s.samples + 1
  ∧ ((runCycle period c s).1.compensation : Int)
      = ((s.compensation : Int) + computeSleepTime period (c.stopTime - c.startTime))
          % (U64 : Int)
  ∧ (runCycle period c s).2 = false := by
  have hcs := StatisticsCollector.calcExecTimeError_compensation_samples
    c.startTime c.postWaitTime period s
  refine ⟨?_, ?_, ?_, ?_⟩
  · simp [runCycle, h]
  · simp [runCycle, h, StatisticsCollector.calcSleepCompensation, hcs.2,
          Nat.mod_eq_of_lt hsam]
  · simp only [runCycle, h, Bool.false_eq_true, if_false,
        StatisticsCollector.calcSleepCompensation, hcs.1]
    rw [Int.toNat_of_nonneg (Int.emod_nonneg _ (by norm_num [U64]))]
  · simp [runCycle, h]

/-- Witness for claim C8: period 100 ns, action time 30 ns, post-wait
clock at 100 ns, not cancelled, on the fresh collector. -/
theorem C8_witness :
    CycleObs.cancelled ⟨0, 30, 100, false⟩ = false
  ∧ StatisticsCollector.init.samples + 1 < U64
  ∧ (runCycle 100 ⟨0, 30, 100, false⟩ StatisticsCollector.init).1.samples
      = StatisticsCollector.init.samples + 1
  ∧ (runCycle 100 ⟨0, 30, 100, false⟩ StatisticsCollector.init).2 = false :=
  have h := C8_cycle_records 100 ⟨0, 30, 100, false⟩
    StatisticsCollector.init rfl (by norm_num [U64, StatisticsCollector.init])
  ⟨rfl, by norm_num [U64, StatisticsCollector.init], h.2.1, h.2.2.2⟩

/-- Claim C9: each uncancelled cycle passes the computed post-offset
sleep duration to calcSleepCompensation; that duration can be negative
(here the action finished 1 ns before the period, within the 50
microsecond offset), and adding a negative nanosecond count to the
unsigned 64-bit accumulator wraps modulo 2 ^ 64, landing near the top
of the uint64_t range instead of decreasing below zero or saturating. -/
theorem C9_compensation_wraps :
    (∀ (period : Int) (c : CycleObs) (s : StatisticsCollector), c.cancelled = false →
       (runCycle period c s).1
         = StatisticsCollector.calcSleepCompensation
             (computeSleepTime period (c.stopTime - c.startTime))
             (StatisticsCollector.calcExecTimeError c.startTime c.postWaitTime period s))
  ∧ computeSleepTime 100000 99999 < 0
  ∧ (∀ (s : StatisticsCollector) (amt : Int), amt < 0 →
       -(U64 : Int) ≤ (s.compensation : Int) + amt →
       (s.compensation : Int) + amt < 0 →
       ((StatisticsCollector.calcSleepCompensation amt s).compensation : Int)
         = (s.compensation : Int) + amt + U64) := by
  refine ⟨fun period c s h => by simp [runCycle, h], by decide,
    fun s amt h1 h2 h3 => ?_⟩
  simp only [StatisticsCollector.calcSleepCompensation]
  have hU : (U64 : Int) = 18446744073709551616 := by norm_num [U64]
  rw [Int.toNat_of_nonneg (Int.emod_nonneg _ (by norm_num [U64]))]
  rw [hU] at h2 ⊢
  omega

/-- Witness for claim C9: the first cycle of a 100 microsecond period
whose action took 99999 ns, so the computed sleep is negative 49999 ns
and the compensation accumulator wraps to 2 ^ 64 - 49999. -/
theorem C9_witness :
    CycleObs.cancelled ⟨0, 99999, 100050, false⟩ = false
  ∧ ((-49999 : Int) < 0)
  ∧ ((StatisticsCollector.init.compensation : Int) + (-49999) < 0)
  ∧ (runCycle 100000 ⟨0, 99999, 100050, false⟩ StatisticsCollector.init).1
      = StatisticsCollector.calcSleepCompensation
          (computeSleepTime 100000 (99999 - 0))
          (StatisticsCollector.calcExecTimeError 0 100050 100000 StatisticsCollector.init)
  ∧ ((StatisticsCollector.calcSleepCompensation (-49999)
        StatisticsCollector.init).compensation : Int)
      = (StatisticsCollector.init.compensation : Int) + (-49999) + U64 :=
  ⟨rfl, by norm_num, by norm_num [StatisticsCollector.init],
   C9_compensation_wraps.1 100000 ⟨0, 99999, 100050, false⟩ StatisticsCollector.init rfl,
   C9_compensation_wraps.2.2 StatisticsCollector.init (-49999) (by norm_num)
     (by norm_num [U64, StatisticsCollector.init])
     (by norm_num [StatisticsCollector.init])⟩

/-- Claim C10: every stop() with statistics enabled emits exactly one
statistics report: a direct stop, a repeated stop on the already
stopped instance, and the stop performed inside
setRate(rate, unit, immediate = true) via restart() all do. -/
theorem C10_every_stop_reports (t : TimerTask) (h : t.statisticsEnabled = true) :
    reportCount (t.stop).2 = 1
  ∧ reportCount (((t.stop).1).stop).2 = 1
  ∧ (∀ r u, reportCount (t.setRate r u true).2 = 1) := by
  refine ⟨?_, ?_, fun r u => ?_⟩ <;>
    cases hj : t.threadJoinable <;>
      simp [TimerTask.stop, TimerTask.setRate, TimerTask.restart, TimerTask.init,
            reportCount, h, hj]

/-- Witness for claim C10: a rate 1 scheduler with statistics enabled;
its stop, a repeated stop, and an immediate rate change each emit one
report. -/
theorem C10_witness :
    (TimerTask.construct 1 TimeUnit.nanoseconds true).statisticsEnabled = true
  ∧ reportCount ((TimerTask.construct 1 TimeUnit.nanoseconds true).stop).2 = 1
  ∧ reportCount ((((TimerTask.construct 1 TimeUnit.nanoseconds true).stop).1).stop).2 = 1
  ∧ reportCount ((TimerTask.construct 1 TimeUnit.nanoseconds true).setRate
      2 TimeUnit.seconds true).2 = 1 :=
  have h := C10_every_stop_reports (TimerTask.construct 1 TimeUnit.nanoseconds true) rfl
  ⟨rfl, h.1, h.2.1, h.2.2 2 TimeUnit.seconds⟩

/-- Witness for claim C2 amended, at the milliseconds unit. -/
theorem C2_witness :
    (TimerTask.construct 0 TimeUnit.milliseconds true).stop
      = ((TimerTask.construct 0 TimeUnit.milliseconds true),
         [Event.reportEmitted (Except.error "division by zero: samples == 0")]) :=
  (C2_rate_zero_stop_spec TimeUnit.milliseconds).2.2.2.2.2
